import Mathlib

/-!
Verification of the forecast-derivation core of `src/weather.py`
(`MqttWeather.start`, lines 92-146): linear interpolation of a
multi-variable forecast time series over the first strictly bracketing
sample pair, rounding to fixed decimal precision, and day-window
aggregation (min / max / cloud-attenuated-UV mean / sum-skip-missing).

Modelling conventions:
* variable values are rationals (`ℚ`); instants are whole seconds since
  the epoch in UTC (`ℤ`);
* the process-local timezone (`tzlocal.get_localzone()`) is modelled as a
  fixed UTC offset `off` in seconds (daylight-saving transitions are not
  modelled);
* Python dicts keyed by the fixed variable names are association lists
  over small enumerated key types;
* Python `round` (round-half-to-even on the exact value) is `pyRound`;
* a raised exception is an `Except.error` / a `none` / an abort flag,
  matching the `try`/`except` structure of the polling loop.
-/

/-- Source field names occurring in the met.no timeseries entries
(the values of `prop_map` plus `precipitation_amount`). -/
inductive FieldName where
  | air_temperature
  | air_pressure_at_sea_level
  | relative_humidity
  | cloud_area_fraction
  | wind_speed
  | wind_from_direction
  | ultraviolet_index_clear_sky
  | precipitation_amount
deriving DecidableEq

/-- Output variable names: the keys of `prop_map` (weather.py lines 36-44). -/
inductive PropKey where
  | temperature
  | pressure
  | humidity
  | clouds
  | wind_speed
  | wind_direction
  | ultraviolet_index_clear_sky
deriving DecidableEq

/-- One timeseries entry after the merge at weather.py lines 100-106: a
timestamp plus the merged `instant`/`next_1_hours` details as an
association list (a variable may be absent from a given sample). -/
structure Sample where
  time : ℤ
  values : List (FieldName × ℚ)
deriving DecidableEq

/-- Dict lookup `x[v]` / `v in x` on a sample's merged details. -/
def Sample.get (s : Sample) (f : FieldName) : Option ℚ :=
  s.values.lookup f

/-- `prop_map` from weather.py lines 36-44, insertion order preserved. -/
def prop_map : List (PropKey × FieldName) :=
  [(PropKey.temperature, FieldName.air_temperature),
   (PropKey.pressure, FieldName.air_pressure_at_sea_level),
   (PropKey.humidity, FieldName.relative_humidity),
   (PropKey.clouds, FieldName.cloud_area_fraction),
   (PropKey.wind_speed, FieldName.wind_speed),
   (PropKey.wind_direction, FieldName.wind_from_direction),
   (PropKey.ultraviolet_index_clear_sky, FieldName.ultraviolet_index_clear_sky)]

/-- Python `round` on an exact rational: round half to even. -/
def pyRound (q : ℚ) : ℤ :=
  if Int.fract q = 1/2 then
    (if ⌊q⌋ % 2 = 0 then ⌊q⌋ else ⌊q⌋ + 1)
  else round q

/-- `round(v*10)/10` (weather.py line 117): round to nearest 0.1. -/
def round1 (q : ℚ) : ℚ := (pyRound (q * 10) : ℚ) / 10

/-- `round(v*100)/100` (weather.py line 139): round to nearest 0.01. -/
def round2 (q : ℚ) : ℚ := (pyRound (q * 100) : ℚ) / 100

/-- The scan at weather.py lines 112-113: walk consecutive pairs
`zip(data[:-1], data[1:])` and return the first pair strictly
bracketing the target, if any. -/
def findBracket : List Sample → ℤ → Option (Sample × Sample)
  | a :: b :: rest, pred_time =>
      if a.time < pred_time ∧ pred_time < b.time then some (a, b)
      else findBracket (b :: rest) pred_time
  | _, _ => none

/-- A derived reading: output variable name to rounded value. -/
abbrev Reading := List (PropKey × ℚ)

/-- The two dict comprehensions at weather.py lines 115-117: linear
interpolation at `pred_time` for every `prop_map` entry whose source
field is present in both endpoints, then rounding to nearest 0.1. -/
def interpPair (a b : Sample) (pred_time : ℤ) : Reading :=
  (prop_map.filterMap fun kf =>
    match a.get kf.2, b.get kf.2 with
    | some va, some vb =>
        some (kf.1,
          va + (vb - va) * ((pred_time - a.time : ℤ) : ℚ) / ((b.time - a.time : ℤ) : ℚ))
    | _, _ => none
  ).map fun kv => (kv.1, round1 kv.2)

/-- `interpolate(series, target_time)`: the reading produced by the loop
at weather.py lines 111-118, absent when no pair strictly brackets. -/
def interpolate (data : List Sample) (pred_time : ℤ) : Option Reading :=
  (findBracket data pred_time).map fun ab => interpPair ab.1 ab.2 pred_time

/-- The publish decision `if pred:` at weather.py line 120: publish only
a present and non-empty reading (an empty dict is falsy in Python). -/
def forecastMessage (data : List Sample) (pred_time : ℤ) : Option Reading :=
  match interpolate data pred_time with
  | some pred => if pred = [] then none else some pred
  | none => none

/-- The aggregated reading built at weather.py lines 132-139. -/
structure AggReading where
  temperature_minimum : ℚ
  temperature_maximum : ℚ
  ultraviolet_index_actual_average : ℚ
  wind_speed_max : ℚ
  precipitation_amount : ℚ
deriving DecidableEq

/-- Evaluate `f` on every sample of the list; `none` as soon as one
evaluation fails (a Python generator raising `KeyError` mid-consumption). -/
def getAll (f : Sample → Option ℚ) : List Sample → Option (List ℚ)
  | [] => some []
  | x :: xs =>
      match f x, getAll f xs with
      | some v, some vs => some (v :: vs)
      | _, _ => none

/-- `0.01*(100-x[clouds])*x[uv_clear_sky]` (weather.py line 135); fails
when either field is missing. -/
def cloudUV (x : Sample) : Option ℚ :=
  match x.get .cloud_area_fraction, x.get .ultraviolet_index_clear_sky with
  | some c, some u => some ((1/100) * (100 - c) * u)
  | _, _ => none

/-- Python `min` over a list: `none` on empty (ValueError). -/
def listMin : List ℚ → Option ℚ
  | [] => none
  | x :: xs => some (xs.foldl min x)

/-- Python `max` over a list: `none` on empty (ValueError). -/
def listMax : List ℚ → Option ℚ
  | [] => none
  | x :: xs => some (xs.foldl max x)

/-- The dict built at weather.py lines 132-139 over the window-set
`pred_range`: min/max temperature, mean cloud-attenuated UV rounded to
nearest 0.01, max wind speed, precipitation summed over the samples that
have the field. `none` models the `KeyError` raised when a required
field is missing from some sample in the window-set. -/
def computeAgg (pred_range : List Sample) : Option AggReading :=
  match getAll (fun x => x.get .air_temperature) pred_range,
        getAll cloudUV pred_range,
        getAll (fun x => x.get .wind_speed) pred_range with
  | some temps, some uvs, some winds =>
      match listMin temps, listMax temps, listMax winds with
      | some tmin, some tmax, some wmax =>
          some { temperature_minimum := tmin
                 temperature_maximum := tmax
                 ultraviolet_index_actual_average :=
                   round2 (uvs.sum / (pred_range.length : ℚ))
                 wind_speed_max := wmax
                 precipitation_amount :=
                   (pred_range.filterMap fun x =>
                     x.get .precipitation_amount).sum }
      | _, _, _ => none
  | _, _, _ => none

/-- `[x for x in data if s <= x['time'] < e]` (weather.py line 128):
the half-open window-set. -/
def windowSet (data : List Sample) (s e : ℤ) : List Sample :=
  data.filter fun x => decide (s ≤ x.time ∧ x.time < e)

/-- Local midnight preceding the instant `now`, with the process-local
timezone modelled as the fixed UTC offset `off` (seconds): the instant of
`datetime(now_local.year, now_local.month, now_local.day, 0, 0, 0,
tzinfo=get_localzone())` at weather.py line 126. -/
def localMidnight (now off : ℤ) : ℤ :=
  86400 * ((now + off).fdiv 86400) - off

/-- `end_of_day` (weather.py lines 125-126): local midnight of `now`
plus one day, i.e. the start of the next local calendar day. -/
def end_of_day (now off : ℤ) : ℤ := localMidnight now off + 86400

/-- The two aggregation windows of weather.py line 127:
`(now, end_of_day, 'today')` and
`(end_of_day, end_of_day + timedelta(days=1), 'tomorrow')`. -/
def cycleWindows (now off : ℤ) : List (ℤ × ℤ × String) :=
  [(now, end_of_day now off, "today"),
   (end_of_day now off, end_of_day now off + 86400, "tomorrow")]

/-- The aggregation loop at weather.py lines 127-141: for each window,
an empty window-set logs an error naming the title and continues; a
non-empty one either yields a published reading, or raises (`KeyError`),
which aborts the rest of the loop (third component `true`). Returns
(published readings, logged errors, aborted flag). -/
def aggPhase (data : List Sample) : List (ℤ × ℤ × String) →
    List (String × AggReading) × List String × Bool
  | [] => ([], [], false)
  | (s, e, title) :: rest =>
      let pred_range := windowSet data s e
      if pred_range = [] then
        let r := aggPhase data rest
        (r.1, ("No prediction data for " ++ title) :: r.2.1, r.2.2)
      else
        match computeAgg pred_range with
        | some pred =>
            let r := aggPhase data rest
            ((title, pred) :: r.1, r.2.1, r.2.2)
        | none => ([], [], true)

/-- The interpolation loop at weather.py lines 108-122: for each offset
`i` in 0..18, the published (topic, reading) pair when one exists. -/
def interpPhase (base : String) (data : List Sample) (now : ℤ) :
    List (String × Reading) :=
  (List.range 19).filterMap fun i =>
    (forecastMessage data (now + 3600 * (i : ℤ))).map fun pred =>
      (base ++ (if i = 0 then "/current" else "/forecast/" ++ toString i ++ "h"),
       pred)

/-- All messages published and errors logged by one polling cycle. -/
structure CycleResult where
  forecasts : List (String × Reading)
  aggs : List (String × AggReading)
  logs : List String
deriving DecidableEq

/-- One iteration of the `while True` body (weather.py lines 92-146).
The fetch-and-parse steps (lines 94-106) are the `input`: `Except.error`
models any exception raised there (HTTP error, JSON parse error,
unparsable timestamp), which skips straight to `logging.error` at line
144. On parsed data, the interpolation loop publishes its readings, then
the aggregation loop runs; an exception raised there is also caught and
logged, keeping every publish that already succeeded. -/
def cycle (base : String) (input : Except String (List Sample))
    (now off : ℤ) : CycleResult :=
  match input with
  | .error e => ⟨[], [], [e]⟩
  | .ok data =>
      let f := interpPhase base data now
      let a := aggPhase data (cycleWindows now off)
      ⟨f, a.1.map fun p => (base ++ "/forecast/" ++ p.1, p.2),
       a.2.1 ++ (if a.2.2 then ["aggregation error"] else [])⟩

/-- The scheduler (`while True` + `time.sleep`): every tick runs one
cycle on that tick's fetch outcome; no cycle outcome stops the loop. -/
def runner (base : String) :
    List (Except String (List Sample) × ℤ × ℤ) → List CycleResult
  | [] => []
  | (input, now, off) :: rest => cycle base input now off :: runner base rest

/-- A sample window-set used to exercise the aggregation path. -/
def wsW : List Sample :=
  [⟨10, [(FieldName.air_temperature, 5), (FieldName.cloud_area_fraction, 0),
    (FieldName.ultraviolet_index_clear_sky, 8), (FieldName.wind_speed, 3)]⟩,
   ⟨20, [(FieldName.air_temperature, 7), (FieldName.cloud_area_fraction, 100),
    (FieldName.ultraviolet_index_clear_sky, 8), (FieldName.wind_speed, 1),
    (FieldName.precipitation_amount, 2)]⟩]

/-! ### Rounding lemmas -/

theorem abs_pyRound_sub_le (q : ℚ) : |(pyRound q : ℚ) - q| ≤ 1/2 := by
  unfold pyRound
  split
  · rename_i hf
    unfold Int.fract at hf
    split
    · rw [abs_sub_comm, hf, abs_of_nonneg (by norm_num : (0:ℚ) ≤ 1/2)]
    · push_cast
      have h1 : (⌊q⌋ : ℚ) + 1 - q = 1/2 := by linarith
      rw [h1, abs_of_nonneg (by norm_num : (0:ℚ) ≤ 1/2)]
  · rw [abs_sub_comm]
    exact abs_sub_round q

theorem abs_round1_sub_le (q : ℚ) : |round1 q - q| ≤ 1/20 := by
  have h := abs_pyRound_sub_le (q * 10)
  have h10 : round1 q - q = ((pyRound (q * 10) : ℚ) - q * 10) / 10 := by
    unfold round1; ring
  rw [h10, abs_div]
  rw [show |(10 : ℚ)| = 10 by norm_num]
  linarith

theorem abs_round2_sub_le (q : ℚ) : |round2 q - q| ≤ 1/200 := by
  have h := abs_pyRound_sub_le (q * 100)
  have h100 : round2 q - q = ((pyRound (q * 100) : ℚ) - q * 100) / 100 := by
    unfold round2; ring
  rw [h100, abs_div]
  rw [show |(100 : ℚ)| = 100 by norm_num]
  linarith

theorem round1_tenth (q : ℚ) : ∃ n : ℤ, round1 q = (n : ℚ) / 10 :=
  ⟨pyRound (q * 10), rfl⟩

theorem round2_hundredth (q : ℚ) : ∃ n : ℤ, round2 q = (n : ℚ) / 100 :=
  ⟨pyRound (q * 100), rfl⟩

/-! ### Bracket-scan lemmas -/

theorem findBracket_lt (data : List Sample) (t : ℤ) (a b : Sample)
    (h : findBracket data t = some (a, b)) : a.time < t ∧ t < b.time := by
  induction data with
  | nil => simp [findBracket] at h
  | cons x xs ih =>
    cases xs with
    | nil => simp [findBracket] at h
    | cons y ys =>
      rw [findBracket] at h
      split at h
      · rename_i hc
        obtain ⟨rfl, rfl⟩ : x = a ∧ y = b := by
          simpa [Prod.ext_iff] using h
        exact hc
      · exact ih h

theorem findBracket_first_spec (data : List Sample) (t : ℤ) (a b : Sample)
    (h : findBracket data t = some (a, b)) :
    ∃ i, data.get? i = some a ∧ data.get? (i+1) = some b ∧
      a.time < t ∧ t < b.time ∧
      ∀ j a' b', j < i → data.get? j = some a' → data.get? (j+1) = some b' →
        ¬(a'.time < t ∧ t < b'.time) := by
  induction data with
  | nil => simp [findBracket] at h
  | cons x xs ih =>
    cases xs with
    | nil => simp [findBracket] at h
    | cons y ys =>
      rw [findBracket] at h
      split at h
      · rename_i hc
        obtain ⟨rfl, rfl⟩ : x = a ∧ y = b := by
          simpa [Prod.ext_iff] using h
        exact ⟨0, rfl, rfl, hc.1, hc.2, fun j a' b' hj => absurd hj (Nat.not_lt_zero j)⟩
      · rename_i hc
        obtain ⟨i, h1, h2, h3, h4, h5⟩ := ih h
        refine ⟨i + 1, h1, h2, h3, h4, ?_⟩
        intro j a' b' hj hja hjb
        cases j with
        | zero =>
          obtain rfl : x = a' := by simpa using hja
          obtain rfl : y = b' := by simpa using hjb
          exact hc
        | succ j' =>
          exact h5 j' a' b' (Nat.lt_of_succ_lt_succ hj) (by simpa using hja)
            (by simpa using hjb)

theorem findBracket_none_of_no_pair (data : List Sample) (t : ℤ)
    (h : ∀ p ∈ data.zip data.tail, ¬(p.1.time < t ∧ t < p.2.time)) :
    findBracket data t = none := by
  induction data with
  | nil => rfl
  | cons x xs ih =>
    cases xs with
    | nil => rfl
    | cons y ys =>
      rw [findBracket, if_neg (h (x, y) (by simp))]
      exact ih fun p hp => h p (by simpa using Or.inr hp)

theorem no_pair_of_mem_sorted (data : List Sample) (x : Sample)
    (hs : data.Pairwise (fun a b => a.time ≤ b.time)) (hx : x ∈ data) :
    ∀ p ∈ data.zip data.tail, ¬(p.1.time < x.time ∧ x.time < p.2.time) := by
  induction data with
  | nil => simp
  | cons hd tl ih =>
    rw [List.pairwise_cons] at hs
    intro p hp
    cases tl with
    | nil => simp at hp
    | cons y ys =>
      rw [show (hd :: y :: ys).tail = y :: ys from rfl] at hp
      rw [List.zip_cons_cons, List.mem_cons] at hp
      rcases hp with rfl | hp
      · rintro ⟨h1, h2⟩
        rcases List.mem_cons.mp hx with rfl | hx'
        · exact absurd h1 (lt_irrefl _)
        · rcases List.mem_cons.mp hx' with rfl | hx''
          · exact absurd h2 (lt_irrefl _)
          · have : y.time ≤ x.time :=
              ((List.pairwise_cons.mp hs.2).1 x hx'')
            exact absurd (lt_of_lt_of_le h2 this) (lt_irrefl _)
      · rcases List.mem_cons.mp hx with rfl | hx'
        · rintro ⟨h1, h2⟩
          have hp1 : p.1 ∈ y :: ys := (List.of_mem_zip hp).1
          have : x.time ≤ p.1.time := hs.1 p.1 hp1
          exact absurd (lt_of_le_of_lt this h1) (lt_irrefl _)
        · exact ih hs.2 hx' p hp

theorem findBracket_of_sorted (data : List Sample) (t : ℤ)
    (hs : data.Pairwise (fun a b => a.time ≤ b.time)) :
    ∀ i a b, data.get? i = some a → data.get? (i+1) = some b →
      a.time < t → t < b.time → findBracket data t = some (a, b) := by
  induction data with
  | nil => intro i a b h1; simp at h1
  | cons x xs ih =>
    intro i a b h1 h2 h3 h4
    cases xs with
    | nil =>
      cases i with
      | zero => simp at h2
      | succ j => simp at h1
    | cons y ys =>
      rw [List.pairwise_cons] at hs
      cases i with
      | zero =>
        obtain rfl : x = a := by simpa using h1
        obtain rfl : y = b := by simpa using h2
        rw [findBracket, if_pos ⟨h3, h4⟩]
      | succ j =>
        have h1' : (y :: ys).get? j = some a := by simpa using h1
        have h2' : (y :: ys).get? (j+1) = some b := by simpa using h2
        have hya : y.time ≤ a.time := by
          cases j with
          | zero =>
            obtain rfl : y = a := by simpa using h1'
            exact le_refl _
          | succ j' =>
            have : a ∈ ys := List.get?_mem (by simpa using h1')
            exact (List.pairwise_cons.mp hs.2).1 a this
        rw [findBracket, if_neg]
        · exact ih hs.2 j a b h1' h2' h3 h4
        · rintro ⟨_, hty⟩
          exact absurd (lt_of_lt_of_le hty hya) (not_lt.mpr (le_of_lt h3))

/-- The keys of `prop_map` are distinct: each output variable has a
unique source field. -/
theorem prop_map_key_unique :
    ∀ p ∈ prop_map, ∀ p' ∈ prop_map, p.1 = p'.1 → p.2 = p'.2 := by
  decide

theorem mem_interpPair (a b : Sample) (t : ℤ) (k : PropKey) (f : FieldName)
    (va vb : ℚ) (hk : (k, f) ∈ prop_map)
    (hva : a.get f = some va) (hvb : b.get f = some vb) :
    (k, round1 (va + (vb - va) * ((t - a.time : ℤ) : ℚ) / ((b.time - a.time : ℤ) : ℚ)))
      ∈ interpPair a b t := by
  unfold interpPair
  apply List.mem_map.mpr
  refine ⟨(k, va + (vb - va) * ((t - a.time : ℤ) : ℚ) / ((b.time - a.time : ℤ) : ℚ)), ?_, rfl⟩
  apply List.mem_filterMap.mpr
  exact ⟨(k, f), hk, by rw [show ((k, f).2 : FieldName) = f from rfl, hva, hvb]⟩

theorem interpPair_val (a b : Sample) (t : ℤ) (k : PropKey) (q : ℚ)
    (hq : (k, q) ∈ interpPair a b t) :
    ∃ f va vb, (k, f) ∈ prop_map ∧ a.get f = some va ∧ b.get f = some vb ∧
      q = round1 (va + (vb - va) * ((t - a.time : ℤ) : ℚ) / ((b.time - a.time : ℤ) : ℚ)) := by
  unfold interpPair at hq
  obtain ⟨⟨k', v⟩, hv, hkv⟩ := List.mem_map.mp hq
  obtain ⟨⟨k'', f⟩, hmem, hf⟩ := List.mem_filterMap.mp hv
  obtain ⟨rfl, rfl⟩ : k' = k ∧ round1 v = q := by
    simpa [Prod.ext_iff] using hkv
  cases hva : a.get f with
  | none => rw [hva] at hf; simp at hf
  | some va =>
    cases hvb : b.get f with
    | none => rw [hva, hvb] at hf; simp at hf
    | some vb =>
      rw [hva, hvb] at hf
      obtain ⟨rfl, rfl⟩ : k'' = k' ∧
          va + (vb - va) * ((t - a.time : ℤ) : ℚ) / ((b.time - a.time : ℤ) : ℚ) = v := by
        simpa [Prod.ext_iff] using hf
      exact ⟨f, va, vb, hmem, hva, hvb, rfl⟩

/-! ### Aggregation helper lemmas -/

theorem getAll_isSome_iff (f : Sample → Option ℚ) (l : List Sample) :
    (getAll f l).isSome ↔ ∀ x ∈ l, (f x).isSome := by
  induction l with
  | nil => simp [getAll]
  | cons x xs ih =>
    rw [getAll]
    cases hx : f x with
    | none => simp [hx]
    | some v =>
      cases hxs : getAll f xs with
      | none => simp [hx, hxs, ← ih]
      | some vs => simp [hx, hxs, ← ih]

theorem getAll_length (f : Sample → Option ℚ) (l : List Sample) (l' : List ℚ)
    (h : getAll f l = some l') : l'.length = l.length := by
  induction l generalizing l' with
  | nil => simp [getAll] at h; simp [← h]
  | cons x xs ih =>
    rw [getAll] at h
    cases hx : f x with
    | none => rw [hx] at h; simp at h
    | some v =>
      cases hxs : getAll f xs with
      | none => rw [hx, hxs] at h; simp at h
      | some vs =>
        rw [hx, hxs] at h
        obtain rfl : v :: vs = l' := by simpa using h
        simp [ih vs hxs]

theorem getAll_mem (f : Sample → Option ℚ) (l : List Sample) (l' : List ℚ)
    (h : getAll f l = some l') (v : ℚ) (hv : v ∈ l') :
    ∃ x ∈ l, f x = some v := by
  induction l generalizing l' with
  | nil => simp [getAll] at h; subst h; simp at hv
  | cons x xs ih =>
    rw [getAll] at h
    cases hx : f x with
    | none => rw [hx] at h; simp at h
    | some w =>
      cases hxs : getAll f xs with
      | none => rw [hx, hxs] at h; simp at h
      | some vs =>
        rw [hx, hxs] at h
        obtain rfl : w :: vs = l' := by simpa using h
        rcases List.mem_cons.mp hv with rfl | hv'
        · exact ⟨x, List.mem_cons_self x xs, hx⟩
        · obtain ⟨y, hy, hfy⟩ := ih vs hxs hv'
          exact ⟨y, List.mem_cons_of_mem x hy, hfy⟩

theorem getAll_mem_of_mem (f : Sample → Option ℚ) (l : List Sample) (l' : List ℚ)
    (h : getAll f l = some l') (x : Sample) (hx : x ∈ l) (v : ℚ)
    (hfx : f x = some v) : v ∈ l' := by
  induction l generalizing l' with
  | nil => simp at hx
  | cons y ys ih =>
    rw [getAll] at h
    cases hy : f y with
    | none => rw [hy] at h; simp at h
    | some w =>
      cases hys : getAll f ys with
      | none => rw [hy, hys] at h; simp at h
      | some vs =>
        rw [hy, hys] at h
        obtain rfl : w :: vs = l' := by simpa using h
        rcases List.mem_cons.mp hx with rfl | hx'
        · obtain rfl : w = v := by rw [hy] at hfx; simpa using hfx
          exact List.mem_cons_self w vs
        · exact List.mem_cons_of_mem w (ih vs hys hx')

theorem getAll_congr (f g : Sample → Option ℚ) (l : List Sample)
    (h : ∀ x ∈ l, f x = g x) : getAll f l = getAll g l := by
  induction l with
  | nil => rfl
  | cons x xs ih =>
    rw [getAll, getAll, h x (List.mem_cons_self x xs),
      ih fun y hy => h y (List.mem_cons_of_mem x hy)]

theorem foldl_min_mem (xs : List ℚ) (x : ℚ) : xs.foldl min x ∈ x :: xs := by
  induction xs generalizing x with
  | nil => simp
  | cons y ys ih =>
    rw [List.foldl_cons]
    rcases List.mem_cons.mp (ih (min x y)) with heq | hmem
    · rw [heq]
      rcases min_choice x y with h | h <;> rw [h] <;> simp
    · exact List.mem_cons_of_mem x (List.mem_cons_of_mem y hmem)

theorem foldl_min_le (xs : List ℚ) (x : ℚ) : ∀ y ∈ x :: xs, xs.foldl min x ≤ y := by
  induction xs generalizing x with
  | nil =>
    intro y hy
    obtain rfl : y = x := List.mem_singleton.mp hy
    exact le_refl _
  | cons z zs ih =>
    intro y hy
    have hinit : zs.foldl min (min x z) ≤ min x z :=
      ih (min x z) (min x z) (List.mem_cons_self _ _)
    rcases List.mem_cons.mp hy with rfl | hy'
    · exact le_trans hinit (min_le_left _ _)
    · rcases List.mem_cons.mp hy' with rfl | hy'' 
      · exact le_trans hinit (min_le_right _ _)
      · exact ih (min x z) y (List.mem_cons_of_mem _ hy'')

theorem foldl_max_mem (xs : List ℚ) (x : ℚ) : xs.foldl max x ∈ x :: xs := by
  induction xs generalizing x with
  | nil => simp
  | cons y ys ih =>
    rw [List.foldl_cons]
    rcases List.mem_cons.mp (ih (max x y)) with heq | hmem
    · rw [heq]
      rcases max_choice x y with h | h <;> rw [h] <;> simp
    · exact List.mem_cons_of_mem x (List.mem_cons_of_mem y hmem)

theorem foldl_le_max (xs : List ℚ) (x : ℚ) : ∀ y ∈ x :: xs, y ≤ xs.foldl max x := by
  induction xs generalizing x with
  | nil =>
    intro y hy
    obtain rfl : y = x := List.mem_singleton.mp hy
    exact le_refl _
  | cons z zs ih =>
    intro y hy
    have hinit : max x z ≤ zs.foldl max (max x z) :=
      ih (max x z) (max x z) (List.mem_cons_self _ _)
    rcases List.mem_cons.mp hy with rfl | hy'
    · exact le_trans (le_max_left _ _) hinit
    · rcases List.mem_cons.mp hy' with rfl | hy''
      · exact le_trans (le_max_right _ _) hinit
      · exact ih (max x z) y (List.mem_cons_of_mem _ hy'')

theorem listMin_mem (l : List ℚ) (m : ℚ) (h : listMin l = some m) : m ∈ l := by
  cases l with
  | nil => simp [listMin] at h
  | cons x xs =>
    obtain rfl : xs.foldl min x = m := by simpa [listMin] using h
    exact foldl_min_mem xs x

theorem listMin_le (l : List ℚ) (m : ℚ) (h : listMin l = some m) :
    ∀ y ∈ l, m ≤ y := by
  cases l with
  | nil => simp [listMin] at h
  | cons x xs =>
    obtain rfl : xs.foldl min x = m := by simpa [listMin] using h
    exact foldl_min_le xs x

theorem listMax_mem (l : List ℚ) (m : ℚ) (h : listMax l = some m) : m ∈ l := by
  cases l with
  | nil => simp [listMax] at h
  | cons x xs =>
    obtain rfl : xs.foldl max x = m := by simpa [listMax] using h
    exact foldl_max_mem xs x

theorem listMax_ge (l : List ℚ) (m : ℚ) (h : listMax l = some m) :
    ∀ y ∈ l, y ≤ m := by
  cases l with
  | nil => simp [listMax] at h
  | cons x xs =>
    obtain rfl : xs.foldl max x = m := by simpa [listMax] using h
    exact foldl_le_max xs x

theorem mem_windowSet (data : List Sample) (s e : ℤ) (x : Sample) :
    x ∈ windowSet data s e ↔ x ∈ data ∧ s ≤ x.time ∧ x.time < e := by
  simp [windowSet, List.mem_filter]

theorem computeAgg_spec (ws : List Sample) (r : AggReading)
    (h : computeAgg ws = some r) :
    ∃ temps uvs winds,
      getAll (fun x => x.get .air_temperature) ws = some temps ∧
      getAll cloudUV ws = some uvs ∧
      getAll (fun x => x.get .wind_speed) ws = some winds ∧
      listMin temps = some r.temperature_minimum ∧
      listMax temps = some r.temperature_maximum ∧
      listMax winds = some r.wind_speed_max ∧
      r.ultraviolet_index_actual_average = round2 (uvs.sum / (ws.length : ℚ)) ∧
      r.precipitation_amount =
        (ws.filterMap fun x => x.get .precipitation_amount).sum := by
  unfold computeAgg at h
  split at h
  · split at h
    · rename_i x1 x2 x3 temps uvs winds h1 h2 h3 x4 x5 x6 tmin tmax wmax h4 h5 h6
      obtain rfl : _ = r := by simpa using h
      exact ⟨temps, uvs, winds, h1, h2, h3, h4, h5, h6, rfl, rfl⟩
    · simp at h
  · simp at h

theorem computeAgg_isSome_iff (ws : List Sample) (hne : ws ≠ []) :
    (computeAgg ws).isSome ↔
      ∀ x ∈ ws, (x.get .air_temperature).isSome ∧
        (x.get .cloud_area_fraction).isSome ∧
        (x.get .ultraviolet_index_clear_sky).isSome ∧
        (x.get .wind_speed).isSome := by
  constructor
  · intro h x hx
    unfold computeAgg at h
    cases h1 : getAll (fun x => x.get .air_temperature) ws with
    | none => rw [h1] at h; simp at h
    | some temps =>
      cases h2 : getAll cloudUV ws with
      | none => rw [h1, h2] at h; simp at h
      | some uvs =>
        cases h3 : getAll (fun x => x.get .wind_speed) ws with
        | none => rw [h1, h2, h3] at h; simp at h
        | some winds =>
          have ht : (x.get FieldName.air_temperature).isSome :=
            (getAll_isSome_iff _ ws).mp (by rw [h1]; rfl) x hx
          have hw : (x.get FieldName.wind_speed).isSome :=
            (getAll_isSome_iff _ ws).mp (by rw [h3]; rfl) x hx
          have hcu : (cloudUV x).isSome :=
            (getAll_isSome_iff _ ws).mp (by rw [h2]; rfl) x hx
          refine ⟨ht, ?_, ?_, hw⟩ <;>
          · unfold cloudUV at hcu
            cases hc : x.get FieldName.cloud_area_fraction <;>
              cases hu : x.get FieldName.ultraviolet_index_clear_sky <;>
              rw [hc, hu] at hcu <;> simp_all
  · intro h
    have h1 : (getAll (fun x => x.get .air_temperature) ws).isSome :=
      (getAll_isSome_iff _ ws).mpr fun x hx => (h x hx).1
    have h2 : (getAll cloudUV ws).isSome := by
      refine (getAll_isSome_iff _ ws).mpr fun x hx => ?_
      obtain ⟨-, hc, hu, -⟩ := h x hx
      unfold cloudUV
      obtain ⟨c, hc'⟩ := Option.isSome_iff_exists.mp hc
      obtain ⟨u, hu'⟩ := Option.isSome_iff_exists.mp hu
      rw [hc', hu']
      rfl
    have h3 : (getAll (fun x => x.get .wind_speed) ws).isSome :=
      (getAll_isSome_iff _ ws).mpr fun x hx => (h x hx).2.2.2
    obtain ⟨temps, ht⟩ := Option.isSome_iff_exists.mp h1
    obtain ⟨uvs, hu⟩ := Option.isSome_iff_exists.mp h2
    obtain ⟨winds, hw⟩ := Option.isSome_iff_exists.mp h3
    have htne : temps ≠ [] := by
      intro hcon
      have := getAll_length _ _ _ ht
      rw [hcon] at this
      exact hne (List.length_eq_zero.mp this.symm)
    have hwne : winds ≠ [] := by
      intro hcon
      have := getAll_length _ _ _ hw
      rw [hcon] at this
      exact hne (List.length_eq_zero.mp this.symm)
    obtain ⟨t0, ts, rfl⟩ := List.exists_cons_of_ne_nil htne
    obtain ⟨w0, wss, rfl⟩ := List.exists_cons_of_ne_nil hwne
    unfold computeAgg
    rw [ht, hu, hw]
    simp [listMin, listMax]

theorem interpolate_none_of_none (data : List Sample) (t : ℤ)
    (h : findBracket data t = none) : interpolate data t = none := by
  unfold interpolate
  rw [h]
  rfl

theorem forecastMessage_none_of_none (data : List Sample) (t : ℤ)
    (h : interpolate data t = none) : forecastMessage data t = none := by
  unfold forecastMessage
  rw [h]

theorem aggPhase_skip (data : List Sample) (s e : ℤ) (title : String)
    (rest : List (ℤ × ℤ × String)) (h : windowSet data s e = []) :
    aggPhase data ((s, e, title) :: rest) =
      ((aggPhase data rest).1,
       ("No prediction data for " ++ title) :: (aggPhase data rest).2.1,
       (aggPhase data rest).2.2) := by
  simp [aggPhase, h]

theorem aggPhase_abort (data : List Sample) (s e : ℤ) (title : String)
    (rest : List (ℤ × ℤ × String)) (hne : windowSet data s e ≠ [])
    (hnone : computeAgg (windowSet data s e) = none) :
    aggPhase data ((s, e, title) :: rest) = ([], [], true) := by
  simp [aggPhase, hne, hnone]

theorem aggPhase_success (data : List Sample) (s e : ℤ) (title : String)
    (rest : List (ℤ × ℤ × String)) (r : AggReading)
    (hne : windowSet data s e ≠ []) (hr : computeAgg (windowSet data s e) = some r) :
    aggPhase data ((s, e, title) :: rest) =
      ((title, r) :: (aggPhase data rest).1,
       (aggPhase data rest).2.1, (aggPhase data rest).2.2) := by
  simp [aggPhase, hne, hr]

/-! ### Claim theorems -/

/-- Claim C1: for a chronologically sorted series, a target strictly
between the timestamps of the consecutive pair `(a, b)` at index `i`,
and any `prop_map` variable whose source field is present in both
endpoints, the returned reading maps that variable exactly to
`a[v] + (b[v]-a[v]) * (target - a.time) / (b.time - a.time)` rounded to
the nearest 0.1 (the value is a multiple of 1/10 within 1/20 of the
exact interpolant). -/
theorem claim_C1 (data : List Sample) (pred_time : ℤ) (i : ℕ) (a b : Sample)
    (k : PropKey) (f : FieldName) (va vb : ℚ)
    (hs : data.Pairwise (fun x y => x.time ≤ y.time))
    (ha : data.get? i = some a) (hb : data.get? (i+1) = some b)
    (h1 : a.time < pred_time) (h2 : pred_time < b.time)
    (hk : (k, f) ∈ prop_map) (hva : a.get f = some va) (hvb : b.get f = some vb) :
    ∃ r, interpolate data pred_time = some r ∧
      (k, round1 (va + (vb - va) * ((pred_time - a.time : ℤ) : ℚ) /
        ((b.time - a.time : ℤ) : ℚ))) ∈ r ∧
      (∀ q, (k, q) ∈ r →
        q = round1 (va + (vb - va) * ((pred_time - a.time : ℤ) : ℚ) /
          ((b.time - a.time : ℤ) : ℚ))) ∧
      |round1 (va + (vb - va) * ((pred_time - a.time : ℤ) : ℚ) /
          ((b.time - a.time : ℤ) : ℚ)) -
        (va + (vb - va) * ((pred_time - a.time : ℤ) : ℚ) /
          ((b.time - a.time : ℤ) : ℚ))| ≤ 1/20 ∧
      ∃ n : ℤ, round1 (va + (vb - va) * ((pred_time - a.time : ℤ) : ℚ) /
        ((b.time - a.time : ℤ) : ℚ)) = (n : ℚ) / 10 := by
  have hfb := findBracket_of_sorted data pred_time hs i a b ha hb h1 h2
  refine ⟨interpPair a b pred_time, ?_, ?_, ?_, ?_, ?_⟩
  · unfold interpolate
    rw [hfb]
    rfl
  · exact mem_interpPair a b pred_time k f va vb hk hva hvb
  · intro q hq
    obtain ⟨f', va', vb', hk', hva', hvb', rfl⟩ :=
      interpPair_val a b pred_time k q hq
    have hf : f' = f := prop_map_key_unique (k, f') hk' (k, f) hk rfl
    subst hf
    rw [hva'] at hva
    rw [hvb'] at hvb
    rw [Option.some.injEq] at hva hvb
    rw [hva, hvb]
  · exact abs_round1_sub_le _
  · exact round1_tenth _

/-- Claim C2: the scan selects the first consecutive pair strictly
bracketing the target (open interval); when no consecutive pair strictly
brackets the target — in particular, for a sorted series, when the
target equals some sample's own timestamp — the result is absent and
nothing is published for that instant. -/
theorem claim_C2 (data : List Sample) (pred_time : ℤ) :
    (∀ a b, findBracket data pred_time = some (a, b) →
      ∃ i, data.get? i = some a ∧ data.get? (i+1) = some b ∧
        a.time < pred_time ∧ pred_time < b.time ∧
        ∀ j a' b', j < i → data.get? j = some a' → data.get? (j+1) = some b' →
          ¬(a'.time < pred_time ∧ pred_time < b'.time)) ∧
    ((∀ p ∈ data.zip data.tail, ¬(p.1.time < pred_time ∧ pred_time < p.2.time)) →
      interpolate data pred_time = none ∧ forecastMessage data pred_time = none) ∧
    (data.Pairwise (fun x y => x.time ≤ y.time) →
      ∀ x ∈ data, pred_time = x.time →
        interpolate data pred_time = none ∧ forecastMessage data pred_time = none) := by
  refine ⟨?_, ?_, ?_⟩
  · intro a b h
    exact findBracket_first_spec data pred_time a b h
  · intro h
    have hn := interpolate_none_of_none data pred_time
      (findBracket_none_of_no_pair data pred_time h)
    exact ⟨hn, forecastMessage_none_of_none data pred_time hn⟩
  · intro hs x hx ht
    subst ht
    have hn := interpolate_none_of_none data x.time
      (findBracket_none_of_no_pair data x.time
        (no_pair_of_mem_sorted data x hs hx))
    exact ⟨hn, forecastMessage_none_of_none data x.time hn⟩

/-- Claim C3: if the bracketing pair is `(a, b)` and a tracked
variable's source field is missing from either endpoint, that variable
is omitted from the interpolated reading (no default value), and the
remaining partial reading, when non-empty, is still published. -/
theorem claim_C3 (data : List Sample) (t : ℤ) (a b : Sample)
    (k : PropKey) (f : FieldName)
    (hfb : findBracket data t = some (a, b)) (hk : (k, f) ∈ prop_map)
    (hmiss : a.get f = none ∨ b.get f = none) :
    ∃ r, interpolate data t = some r ∧ (∀ q, (k, q) ∉ r) ∧
      (r ≠ [] → forecastMessage data t = some r) := by
  have hint : interpolate data t = some (interpPair a b t) := by
    unfold interpolate
    rw [hfb]
    rfl
  refine ⟨interpPair a b t, hint, ?_, ?_⟩
  · intro q hq
    obtain ⟨f', va', vb', hk', hva', hvb', -⟩ :=
      interpPair_val a b t k q hq
    have hf : f' = f := prop_map_key_unique (k, f') hk' (k, f) hk rfl
    subst hf
    rcases hmiss with hm | hm
    · rw [hm] at hva'
      exact Option.noConfusion hva'
    · rw [hm] at hvb'
      exact Option.noConfusion hvb'
  · intro hne
    unfold forecastMessage
    rw [hint]
    simp [hne]

/-- Claim C4: a window whose window-set is empty produces no reading and
no publish, adds exactly one error diagnostic naming the window's title,
and the remaining windows of the same cycle are processed unchanged. -/
theorem claim_C4 (data : List Sample) (s e : ℤ) (title : String)
    (rest : List (ℤ × ℤ × String)) (h : windowSet data s e = []) :
    aggPhase data ((s, e, title) :: rest) =
      ((aggPhase data rest).1,
       ("No prediction data for " ++ title) :: (aggPhase data rest).2.1,
       (aggPhase data rest).2.2) :=
  aggPhase_skip data s e title rest h

/-- Claim C5: for a window-set whose aggregation succeeds, the reading's
`temperature_minimum`/`temperature_maximum` are the true min/max of the
temperature field, `wind_speed_max` the true max of the wind speed
field, and `precipitation_amount` the sum of the precipitation field
over exactly the samples that have it (missing ones contribute
nothing). -/
theorem claim_C5 (ws : List Sample) (r : AggReading)
    (h : computeAgg ws = some r) :
    (∃ x ∈ ws, x.get .air_temperature = some r.temperature_minimum) ∧
    (∀ x ∈ ws, ∀ v, x.get .air_temperature = some v →
      r.temperature_minimum ≤ v) ∧
    (∃ x ∈ ws, x.get .air_temperature = some r.temperature_maximum) ∧
    (∀ x ∈ ws, ∀ v, x.get .air_temperature = some v →
      v ≤ r.temperature_maximum) ∧
    (∃ x ∈ ws, x.get .wind_speed = some r.wind_speed_max) ∧
    (∀ x ∈ ws, ∀ v, x.get .wind_speed = some v → v ≤ r.wind_speed_max) ∧
    r.precipitation_amount =
      (ws.filterMap fun x => x.get .precipitation_amount).sum := by
  obtain ⟨temps, uvs, winds, h1, h2, h3, h4, h5, h6, h7, h8⟩ :=
    computeAgg_spec ws r h
  refine ⟨?_, ?_, ?_, ?_, ?_, ?_, h8⟩
  · exact getAll_mem _ ws temps h1 _ (listMin_mem temps _ h4)
  · intro x hx v hv
    exact listMin_le temps _ h4 v (getAll_mem_of_mem _ ws temps h1 x hx v hv)
  · exact getAll_mem _ ws temps h1 _ (listMax_mem temps _ h5)
  · intro x hx v hv
    exact listMax_ge temps _ h5 v (getAll_mem_of_mem _ ws temps h1 x hx v hv)
  · exact getAll_mem _ ws winds h3 _ (listMax_mem winds _ h6)
  · intro x hx v hv
    exact listMax_ge winds _ h6 v (getAll_mem_of_mem _ ws winds h3 x hx v hv)

/-- Claim C6: for a window-set whose aggregation succeeds, the reading's
`ultraviolet_index_actual_average` is the arithmetic mean of
`(1 - clouds/100) * ultraviolet_index_clear_sky` over the window-set,
rounded to the nearest 0.01 (a multiple of 1/100 within 1/200 of the
exact mean) — a finer precision than the 0.1 rounding of interpolated
readings. -/
theorem claim_C6 (ws : List Sample) (r : AggReading) (l : List ℚ)
    (h : computeAgg ws = some r)
    (hl : getAll (fun x =>
        match x.get .cloud_area_fraction, x.get .ultraviolet_index_clear_sky with
        | some c, some u => some ((1 - c/100) * u)
        | _, _ => none) ws = some l) :
    r.ultraviolet_index_actual_average = round2 (l.sum / (ws.length : ℚ)) ∧
    |r.ultraviolet_index_actual_average - l.sum / (ws.length : ℚ)| ≤ 1/200 ∧
    ∃ n : ℤ, r.ultraviolet_index_actual_average = (n : ℚ) / 100 := by
  obtain ⟨temps, uvs, winds, h1, h2, h3, h4, h5, h6, h7, h8⟩ :=
    computeAgg_spec ws r h
  have hfg : getAll cloudUV ws = getAll (fun x =>
      match x.get .cloud_area_fraction, x.get .ultraviolet_index_clear_sky with
      | some c, some u => some ((1 - c/100) * u)
      | _, _ => none) ws := by
    apply getAll_congr
    intro x _
    unfold cloudUV
    cases x.get FieldName.cloud_area_fraction with
    | none => rfl
    | some c =>
      cases x.get FieldName.ultraviolet_index_clear_sky with
      | none => rfl
      | some u => exact congrArg some (by ring)
  rw [hfg, hl] at h2
  obtain rfl : l = uvs := by simpa using h2
  refine ⟨h7, ?_, ?_⟩
  · rw [h7]
    exact abs_round2_sub_le _
  · rw [h7]
    exact round2_hundredth _

/-- Claim C7: the aggregation windows are half-open, `today` being
`[now, B)` and `tomorrow` `[B, B + 1 day)`, where `B` is obtained by
converting `now` to the process-local timezone (a fixed UTC offset
`off`), truncating to local midnight, and adding one day — so `B + off`
is a multiple of 86400 ahead of the local wall clock, `now < B ≤
now + 1 day`, and a series lying entirely inside `[now, B)` lands wholly
in the `today` window even when it crosses a UTC midnight. -/
theorem claim_C7 (now off : ℤ) (data : List Sample) :
    cycleWindows now off = [(now, end_of_day now off, "today"),
      (end_of_day now off, end_of_day now off + 86400, "tomorrow")] ∧
    end_of_day now off + off = 86400 * ((now + off).fdiv 86400 + 1) ∧
    now < end_of_day now off ∧
    end_of_day now off ≤ now + 86400 ∧
    (∀ x, x ∈ windowSet data now (end_of_day now off) ↔
      x ∈ data ∧ now ≤ x.time ∧ x.time < end_of_day now off) ∧
    ((∀ x ∈ data, now ≤ x.time ∧ x.time < end_of_day now off) →
      windowSet data now (end_of_day now off) = data ∧
      windowSet data (end_of_day now off) (end_of_day now off + 86400) = []) := by
  have hfd : (now + off).fdiv 86400 = (now + off) / 86400 :=
    Int.fdiv_eq_ediv _ (by norm_num)
  have hmod := Int.ediv_add_emod (now + off) 86400
  have hnn : 0 ≤ (now + off) % 86400 := Int.emod_nonneg _ (by norm_num)
  have hlt : (now + off) % 86400 < 86400 := Int.emod_lt_of_pos _ (by norm_num)
  refine ⟨rfl, ?_, ?_, ?_, fun x => mem_windowSet data now (end_of_day now off) x,
    ?_⟩
  · unfold end_of_day localMidnight
    ring
  · unfold end_of_day localMidnight
    rw [hfd]
    omega
  · unfold end_of_day localMidnight
    rw [hfd]
    omega
  · intro hall
    constructor
    · apply List.filter_eq_self.mpr
      intro x hx
      simpa using hall x hx
    · apply List.filter_eq_nil_iff.mpr
      intro x hx
      have := (hall x hx).2
      simp only [decide_eq_true_eq, not_and]
      intro hle
      omega

/-- Claim C8: every exception inside a polling cycle is caught and
logged — a failed fetch/parse yields a cycle with no publishes and the
error in the log, an aggregation exception keeps exactly the publishes
that already succeeded and logs the error — and the scheduler always
runs every remaining tick. -/
theorem claim_C8 (base : String)
    (inputs : List (Except String (List Sample) × ℤ × ℤ)) :
    (runner base inputs).length = inputs.length ∧
    (∀ e now off rest, runner base ((Except.error e, now, off) :: rest) =
      ⟨[], [], [e]⟩ :: runner base rest) ∧
    (∀ data now off, (aggPhase data (cycleWindows now off)).2.2 = true →
      cycle base (Except.ok data) now off =
        ⟨interpPhase base data now,
         (aggPhase data (cycleWindows now off)).1.map
           (fun p => (base ++ "/forecast/" ++ p.1, p.2)),
         (aggPhase data (cycleWindows now off)).2.1 ++ ["aggregation error"]⟩) := by
  refine ⟨?_, ?_, ?_⟩
  · induction inputs with
    | nil => rfl
    | cons p rest ih =>
      obtain ⟨inp, now, off⟩ := p
      rw [runner]
      simp [ih]
  · intro e now off rest
    rfl
  · intro data now off habort
    simp [cycle, habort]

/-- Claim C9: the strict bracketing condition guarantees the selected
pair has strictly increasing timestamps, so the interpolation divisor
`b.time - a.time` is strictly positive — equal-timestamp (zero-width)
pairs are never selected and no division by zero can occur. -/
theorem claim_C9 (data : List Sample) (t : ℤ) (a b : Sample)
    (h : findBracket data t = some (a, b)) : 0 < b.time - a.time := by
  obtain ⟨h1, h2⟩ := findBracket_lt data t a b h
  omega

/-- Claim C10: aggregation over a non-empty window-set succeeds exactly
when every sample has the temperature, clouds, UV-clear-sky and wind
speed fields (precipitation alone may be absent); when a required field
is missing the aggregation raises, aborting the remaining windows of the
cycle (no publishes, no further logs from the aggregation loop). -/
theorem claim_C10 :
    (∀ ws : List Sample, ws ≠ [] →
      ((computeAgg ws).isSome ↔ ∀ x ∈ ws,
        (x.get .air_temperature).isSome ∧
        (x.get .cloud_area_fraction).isSome ∧
        (x.get .ultraviolet_index_clear_sky).isSome ∧
        (x.get .wind_speed).isSome)) ∧
    (∀ (data : List Sample) (s e : ℤ) (title : String)
        (rest : List (ℤ × ℤ × String)),
      windowSet data s e ≠ [] → computeAgg (windowSet data s e) = none →
      aggPhase data ((s, e, title) :: rest) = ([], [], true)) :=
  ⟨computeAgg_isSome_iff, aggPhase_abort⟩

/-! ### Witnesses: each claim theorem applied at a concrete input -/

theorem claim_C1_witness :
    ∃ r, interpolate
        [⟨0, [(FieldName.air_temperature, 10)]⟩,
         ⟨3600, [(FieldName.air_temperature, 12)]⟩] 1800 = some r ∧
      (PropKey.temperature,
        round1 (10 + (12 - 10) * ((1800 - 0 : ℤ) : ℚ) / ((3600 - 0 : ℤ) : ℚ))) ∈ r := by
  obtain ⟨r, h1, h2, -, -, -⟩ :=
    claim_C1 [⟨0, [(FieldName.air_temperature, 10)]⟩,
      ⟨3600, [(FieldName.air_temperature, 12)]⟩] 1800 0
      ⟨0, [(FieldName.air_temperature, 10)]⟩
      ⟨3600, [(FieldName.air_temperature, 12)]⟩
      PropKey.temperature FieldName.air_temperature 10 12
      (by decide) rfl rfl (by decide) (by decide) (by decide) rfl rfl
  exact ⟨r, h1, h2⟩

theorem claim_C2_witness :
    interpolate [⟨0, [(FieldName.air_temperature, 10)]⟩,
      ⟨3600, [(FieldName.air_temperature, 12)]⟩] 0 = none ∧
    forecastMessage [⟨0, [(FieldName.air_temperature, 10)]⟩,
      ⟨3600, [(FieldName.air_temperature, 12)]⟩] 0 = none :=
  (claim_C2 [⟨0, [(FieldName.air_temperature, 10)]⟩,
      ⟨3600, [(FieldName.air_temperature, 12)]⟩] 0).2.2 (by decide)
    ⟨0, [(FieldName.air_temperature, 10)]⟩ (by decide) rfl

theorem claim_C3_witness :
    ∃ r, interpolate
        [⟨0, [(FieldName.air_temperature, 10), (FieldName.relative_humidity, 50)]⟩,
         ⟨3600, [(FieldName.relative_humidity, 60)]⟩] 1800 = some r ∧
      (∀ q, (PropKey.temperature, q) ∉ r) ∧
      (r ≠ [] → forecastMessage
        [⟨0, [(FieldName.air_temperature, 10), (FieldName.relative_humidity, 50)]⟩,
         ⟨3600, [(FieldName.relative_humidity, 60)]⟩] 1800 = some r) :=
  claim_C3 [⟨0, [(FieldName.air_temperature, 10), (FieldName.relative_humidity, 50)]⟩,
      ⟨3600, [(FieldName.relative_humidity, 60)]⟩] 1800
    ⟨0, [(FieldName.air_temperature, 10), (FieldName.relative_humidity, 50)]⟩
    ⟨3600, [(FieldName.relative_humidity, 60)]⟩
    PropKey.temperature FieldName.air_temperature (by decide) (by decide)
    (Or.inr rfl)

theorem claim_C4_witness :
    aggPhase [⟨5, []⟩] [(10, 20, "today")] =
      ([], ["No prediction data for " ++ "today"], false) :=
  claim_C4 [⟨5, []⟩] 10 20 "today" [] (by decide)

theorem claim_C5_witness :
    ∃ r, computeAgg wsW = some r ∧
      (∃ x ∈ wsW, Sample.get x .air_temperature = some r.temperature_minimum) ∧
      r.precipitation_amount =
        (List.filterMap (fun x => Sample.get x .precipitation_amount) wsW).sum := by
  obtain ⟨h1, -, -, -, -, -, h7⟩ := claim_C5 wsW _ rfl
  exact ⟨_, rfl, h1, h7⟩

theorem claim_C6_witness :
    ∃ r l, computeAgg wsW = some r ∧
      getAll (fun x =>
        match Sample.get x .cloud_area_fraction,
            Sample.get x .ultraviolet_index_clear_sky with
        | some c, some u => some ((1 - c/100) * u)
        | _, _ => none) wsW = some l ∧
      r.ultraviolet_index_actual_average = round2 (l.sum / ((wsW.length : ℕ) : ℚ)) ∧
      |r.ultraviolet_index_actual_average - l.sum / ((wsW.length : ℕ) : ℚ)| ≤ 1/200 ∧
      ∃ n : ℤ, r.ultraviolet_index_actual_average = (n : ℚ) / 100 :=
  ⟨_, _, rfl, rfl, claim_C6 wsW _ _ rfl rfl⟩

theorem claim_C7_witness :
    ((84600 : ℤ) < 86400 ∧ (86400 : ℤ) < 88200) ∧
    windowSet [⟨84600, []⟩, ⟨88200, []⟩] 82800 (end_of_day 82800 7200) =
      [⟨84600, []⟩, ⟨88200, []⟩] ∧
    windowSet [⟨84600, []⟩, ⟨88200, []⟩] (end_of_day 82800 7200)
      (end_of_day 82800 7200 + 86400) = [] :=
  ⟨by decide,
   (claim_C7 82800 7200 [⟨84600, []⟩, ⟨88200, []⟩]).2.2.2.2.2 (by decide)⟩

theorem claim_C8_witness :
    runner "base" [(Except.error "boom", 0, 0)] = [⟨[], [], ["boom"]⟩] ∧
    cycle "base" (Except.ok [⟨10, [(FieldName.air_temperature, 5)]⟩]) 0 0 =
      ⟨interpPhase "base" [⟨10, [(FieldName.air_temperature, 5)]⟩] 0,
       (aggPhase [⟨10, [(FieldName.air_temperature, 5)]⟩]
         (cycleWindows 0 0)).1.map
           (fun p => ("base" ++ "/forecast/" ++ p.1, p.2)),
       (aggPhase [⟨10, [(FieldName.air_temperature, 5)]⟩]
         (cycleWindows 0 0)).2.1 ++ ["aggregation error"]⟩ :=
  ⟨(claim_C8 "base" []).2.1 "boom" 0 0 [],
   (claim_C8 "base" []).2.2 [⟨10, [(FieldName.air_temperature, 5)]⟩] 0 0
     (by decide)⟩

theorem claim_C9_witness :
    findBracket [⟨0, []⟩, ⟨0, []⟩, ⟨10, []⟩] 5 =
      some (⟨0, []⟩, ⟨10, []⟩) ∧
    (0 : ℤ) < (Sample.mk 10 []).time - (Sample.mk 0 []).time :=
  ⟨by decide,
   claim_C9 [⟨0, []⟩, ⟨0, []⟩, ⟨10, []⟩] 5 ⟨0, []⟩ ⟨10, []⟩ (by decide)⟩

theorem claim_C10_witness :
    (computeAgg
      [⟨10, [(FieldName.air_temperature, 5), (FieldName.cloud_area_fraction, 0),
        (FieldName.ultraviolet_index_clear_sky, 8),
        (FieldName.wind_speed, 3)]⟩]).isSome ∧
    aggPhase [⟨10, [(FieldName.air_temperature, 5)]⟩]
      [(0, 20, "today"), (20, 30, "tomorrow")] = ([], [], true) :=
  ⟨(claim_C10.1 [⟨10, [(FieldName.air_temperature, 5), (FieldName.cloud_area_fraction, 0),
      (FieldName.ultraviolet_index_clear_sky, 8),
      (FieldName.wind_speed, 3)]⟩] (by decide)).mpr (by decide),
   claim_C10.2 [⟨10, [(FieldName.air_temperature, 5)]⟩] 0 20 "today"
     [(20, 30, "tomorrow")] (by decide) (by decide)⟩
